import Mathlib

/-!
Shallow embedding of the core of `DataCollectionGUI.py` (UW-Stroke-Rehab
Data-Collection): the experiment-timeline builder
(`determine_collection_duration`), the 1-second clock (`time_loop`), the
exact-read transport helper (`recvall`), the packet decoder and handler
(`receive_and_handle_data`), and the acquisition/drain state machine
(`socket_loop`).  Python floats are modelled as rationals (plus IEEE-754
specials), byte strings as lists of naturals below 256, the TCP byte
stream as a list of `recv` results, and Python exceptions as an explicit
error type threaded through `Except`.
-/

set_option maxRecDepth 8000

namespace DataCollection

/-- Python exceptions that the modelled code can raise: `TypeError`
(None arithmetic and a misspelled keyword argument) and `struct.error`
(a `struct.unpack` size mismatch). -/
inductive PyError where
  | typeError
  | structError
deriving DecidableEq, Repr

/-- Value of a Python float obtained by unpacking an IEEE-754 binary32:
either a finite rational or one of the special values. -/
inductive F32 where
  | finite (q : ℚ)
  | nan
  | inf
  | ninf
deriving DecidableEq, Repr

/-- Python slice `l[a:b]` on a byte string (clamping semantics). -/
def pySlice (l : List ℕ) (a b : ℕ) : List ℕ := (l.take b).drop a

/-- Python `int.from_bytes(bs, byteorder="big", signed=False)`; on an
empty slice it returns 0, exactly as in Python. -/
def intFromBytesBE (l : List ℕ) : ℕ := l.foldl (fun acc b => acc * 256 + b) 0

/-- Value of an IEEE-754 binary32 given as four big-endian bytes:
sign, 8-bit exponent, 23-bit fraction; exponent 255 encodes the special
values, exponent 0 the subnormals. -/
def decodeF32 (bs : List ℕ) : F32 :=
  let w : ℕ := intFromBytesBE bs
  let sign : ℕ := w / 2 ^ 31
  let expo : ℕ := (w / 2 ^ 23) % 256
  let frac : ℕ := w % 2 ^ 23
  if expo = 255 then
    if frac = 0 then (if sign = 1 then F32.ninf else F32.inf) else F32.nan
  else
    let mag : ℚ :=
      if expo = 0 then (frac : ℚ) * (2 : ℚ) ^ (-149 : ℤ)
      else ((2 ^ 23 + frac : ℕ) : ℚ) * (2 : ℚ) ^ ((expo : ℤ) - 150)
    F32.finite (if sign = 1 then -mag else mag)

/-- Python `struct.unpack(">f", bs)[0]`: raises `struct.error` unless the
argument is exactly 4 bytes long. -/
def unpackF (bs : List ℕ) : Except PyError F32 :=
  if bs.length = 4 then .ok (decodeF32 bs) else .error .structError

/-- Consecutive big-endian binary32 values of a byte string, four bytes
per value. -/
def unpackF32List : List ℕ → List F32
  | b0 :: b1 :: b2 :: b3 :: rest => decodeF32 [b0, b1, b2, b3] :: unpackF32List rest
  | _ => []

/-- Python `struct.unpack(">25f", bs)`: raises `struct.error` unless the
argument is exactly 100 bytes long, and otherwise yields the 25
consecutive big-endian binary32 values. -/
def unpack25F (bs : List ℕ) : Except PyError (List F32) :=
  if bs.length = 100 then .ok (unpackF32List bs) else .error .structError

/-- Digits of the decimal expansion of `n / d` for `n < d`, produced
most-significant first by long division; the fuel bounds the number of
digits and is ample for every finite binary32 value (at most 149
fractional digits). -/
def decDigits : ℕ → ℕ → ℕ → List ℕ
  | 0, _, _ => []
  | fuel + 1, n, d =>
    if n = 0 then []
    else 10 * n / d :: decDigits fuel (10 * n % d) d

/-- Render a list of decimal digits as a string. -/
def digitsToString (ds : List ℕ) : String :=
  String.mk (ds.map (fun d => Char.ofNat (48 + d)))

/-- Text form of a finite Python float, as `str` produces it for the
values arising in this development: sign, integer part, a dot, and the
fractional digits (or `0` when the value is integral), read off the
reduced numerator and denominator.  CPython prints the shortest decimal
that round-trips through the double; on every value these theorems
evaluate it at (integers and integer-plus-half values of small
magnitude) that shortest decimal is the exact finite expansion computed
here. -/
def pyStrQ (q : ℚ) : String :=
  let sgn := if q.num < 0 then "-" else ""
  let n : ℕ := q.num.natAbs
  let d : ℕ := q.den
  let ds := decDigits 200 (n % d) d
  sgn ++ toString (n / d) ++ "." ++ (if ds.isEmpty then "0" else digitsToString ds)

/-- Text form of a Python float, covering the special values as `str`
prints them. -/
def pyStrF32 : F32 → String
  | .finite q => pyStrQ q
  | .nan => "nan"
  | .inf => "inf"
  | .ninf => "-inf"

/-- Python float subtraction including the special values. -/
def pySub : F32 → F32 → F32
  | .finite a, .finite b => .finite (a - b)
  | .finite _, .inf => .ninf
  | .finite _, .ninf => .inf
  | .inf, .finite _ => .inf
  | .inf, .inf => .nan
  | .inf, .ninf => .inf
  | .ninf, .finite _ => .ninf
  | .ninf, .inf => .ninf
  | .ninf, .ninf => .nan
  | .nan, _ => .nan
  | _, .nan => .nan

/-- Python float comparison `a < b`; any comparison with NaN is false. -/
def pyLtF : F32 → F32 → Bool
  | .finite a, .finite b => decide (a < b)
  | .finite _, .inf => true
  | .finite _, .ninf => false
  | .finite _, .nan => false
  | .inf, _ => false
  | .ninf, .nan => false
  | .ninf, .ninf => false
  | .ninf, _ => true
  | .nan, _ => false

/-- Python subtraction on optional floats: `None - x` and `x - None`
raise `TypeError`, exactly as the unguarded timestamp fields do. -/
def pySubOpt : Option F32 → Option F32 → Except PyError F32
  | some a, some b => .ok (pySub a b)
  | _, _ => .error .typeError

/-! ## Timeline builder (`determine_collection_duration`, lines 888-916) -/

/-- Relax prompt constant (`RELAX_PROMPT = "Relax"`, line 25). -/
def RELAX_PROMPT : String := "Relax"

/-- Python dict assignment `d[k] = v` on an insertion-ordered association
list: an existing key keeps its position and receives the new value, a
new key is appended. -/
def dictInsert (d : List (ℚ × String)) (k : ℚ) (v : String) : List (ℚ × String) :=
  if d.any (fun p => decide (p.1 = k)) then
    d.map (fun p => if p.1 = k then (k, v) else p)
  else d ++ [(k, v)]

/-- Keys of a dict in insertion order (`list(d.keys())`). -/
def keysOf (d : List (ℚ × String)) : List ℚ := d.map Prod.fst

/-- Loop body of `determine_collection_duration` (lines 903-910), run once
per `range(option.loop_times)` iteration; returns the final
`last_timestamp`, the dict, and the keys written by the loop in
construction order (instrumentation used by the theorems). -/
def buildTimelineGo (relax action : ℚ) (prompt : String) :
    ℕ → ℚ → List (ℚ × String) → ℚ × List (ℚ × String) × List ℚ
  | 0, last, d => (last, d, [])
  | n + 1, last, d =>
    let time_till_act := relax + last
    let time_till_rest := action + time_till_act
    let d1 := dictInsert d time_till_act prompt
    let d2 := dictInsert d1 time_till_rest RELAX_PROMPT
    let r := buildTimelineGo relax action prompt n time_till_rest d2
    (r.1, r.2.1, time_till_act :: time_till_rest :: r.2.2)

/-- Embedding of `determine_collection_duration` (lines 888-916): builds
`prompt_dictionary` and returns `list(keys)[-1]` as the collection
duration, together with the dict and the full key-write sequence in
construction order. -/
def determine_collection_duration (relax action : ℚ) (loops : ℕ) (prompt : String) :
    ℚ × List (ℚ × String) × List ℚ :=
  let d0 := dictInsert [] 0 RELAX_PROMPT
  let r := buildTimelineGo relax action prompt loops 0 d0
  let last := r.1
  let d2 := dictInsert r.2.1 (last + relax) RELAX_PROMPT
  ((keysOf d2).getLast?.getD 0, d2, 0 :: (r.2.2 ++ [last + relax]))

/-! ## Clock (`time_loop`, lines 1030-1060) -/

/-- Mutable counters of the timer thread (`self.seconds`, `self.minutes`,
lines 734-735). -/
structure ClockSt where
  seconds : ℕ
  minutes : ℕ
deriving DecidableEq, Repr

/-- One iteration of the `while self.timer_running` body (lines 1033-1057):
increment the seconds counter, wrap it to 0 at 60 carrying into minutes,
look up the wrapped counter in `prompt_dictionary`, and after the sleep
test `self.seconds == self.collection_duration`, which triggers `start()`
and thereby stops the session.  Returns the new counters, the prompt
found (if any), and whether the expiry test fired. -/
def time_tick (timeline : List (ℚ × String)) (dur : ℚ) (st : ClockSt) :
    ClockSt × Option String × Bool :=
  let s1 := st.seconds + 1
  let s2 := if s1 = 60 then 0 else s1
  let m2 := if s1 = 60 then st.minutes + 1 else st.minutes
  let prompt := (timeline.find? (fun p => decide (p.1 = (s2 : ℚ)))).map Prod.snd
  (⟨s2, m2⟩, prompt, decide ((s2 : ℚ) = dur))

/-- Run the timer loop for at most `n` ticks, stopping early when the
expiry test fires (after which `start()` clears `timer_running`); the
Bool records whether expiry fired within those ticks. -/
def time_loop_run (timeline : List (ℚ × String)) (dur : ℚ) : ℕ → ClockSt → ClockSt × Bool
  | 0, st => (st, false)
  | n + 1, st =>
    let r := time_tick timeline dur st
    if r.2.2 then (r.1, true) else time_loop_run timeline dur n r.1

/-! ## Transport (`recvall`, lines 1062-1079) -/

/-- Model of the receive side of the TCP socket: each entry is the result
of one `socket.recv` call — `some bytes` for delivered data (never empty
for a live peer) and `none` for an OS-level fault that makes `recv`
raise.  An exhausted list models the peer having closed the connection:
every further `recv` returns an empty byte string. -/
abbrev RecvStream := List (Option (List ℕ))

/-- Loop body of `recvall` (lines 1067-1077): keep receiving until
`count` bytes are accumulated; an exception or an empty `recv` result
makes the whole call return `None`.  When a chunk holds more than the
missing bytes the surplus stays at the front of the stream.  Returns the
result and the remaining stream. -/
def recvallGo : RecvStream → ℕ → List ℕ → Option (List ℕ) × RecvStream
  | [], need, acc =>
    if need = 0 then (some acc, []) else (none, [])
  | none :: rest, need, acc =>
    if need = 0 then (some acc, none :: rest) else (none, none :: rest)
  | some c :: rest, need, acc =>
    if need = 0 then (some acc, some c :: rest)
    else if c.isEmpty then (none, some c :: rest)
    else if need < c.length then (some (acc ++ c.take need), some (c.drop need) :: rest)
    else recvallGo rest (need - c.length) (acc ++ c)

/-- Embedding of `recvall` (lines 1062-1079). -/
def recvall (s : RecvStream) (count : ℕ) : Option (List ℕ) × RecvStream :=
  recvallGo s count []

/-- Byte count contributed by one `recv` result. -/
def chunkBytes : Option (List ℕ) → ℕ
  | none => 0
  | some c => c.length

/-- Termination measure on the modelled socket: total buffered bytes plus
the number of pending `recv` results. -/
def streamMeasure (s : RecvStream) : ℕ := (s.map chunkBytes).sum + s.length

/-! ## Session state and the packet handler
(`receive_and_handle_data`, lines 1081-1132) -/

/-- Events sent to the text-box log sink, one constructor per
`insert_text` call site reached by the modelled code; rendering
(including the `{:.2f}` formatting of the summary lines) is
presentation and outside the model. -/
inductive LogEntry where
  | noDataRemaining
  | eventPacket (name : String)
  | beginningCollection
  | capturingBacklog
  | backlogWarning
  | backlogSummary (span : F32)
  | collectionBeganAt (t : Option F32)
  | backlogBeganAt (t : Option F32)
  | backlogEndedAt (t : Option F32)
  | loopEnding
deriving DecidableEq, Repr

/-- Session fields touched by the acquisition thread
(lines 727-736): the two device timestamps, the backlog mark, the timer
flag, the output file contents, and the log. -/
structure SessionSt where
  start_time_stamp : Option F32
  last_time_stamp : Option F32
  backlog_time_stamp : Option F32
  timer_running : Bool
  file : String
  log : List LogEntry
deriving DecidableEq, Repr

/-- Append one log event. -/
def logAdd (st : SessionSt) (e : LogEntry) : SessionSt := { st with log := st.log ++ [e] }

/-- Session fields as initialised in `__init__` (lines 727-736), with an
empty output file. -/
def sessionInit : SessionSt :=
  { start_time_stamp := none, last_time_stamp := none, backlog_time_stamp := none
    timer_running := false, file := "", log := [] }

/-- Event-code table `DSI_EVENT_CODES` (lines 737-748). -/
def DSI_EVENT_CODES : ℕ → Option String := fun c =>
  if c = 1 then some "Greeting/Version"
  else if c = 2 then some "Data Start"
  else if c = 3 then some "Data Stop"
  else if c = 4 then some "Reserved"
  else if c = 5 then some "Reserved"
  else if c = 6 then some "Reserved"
  else if c = 7 then some "Reserved"
  else if c = 8 then some "Reserved"
  else if c = 9 then some "Sensor Map"
  else if c = 10 then some "Data Rate"
  else none

/-- Dispatch on a completed frame (lines 1099-1132), given the 12-byte
header and the body; `data` is their concatenation, exactly as built at
line 1097.  Type 5: decode the event code, log the event name, and on
code 2 set `timer_running` (the spawned timer thread is modelled by the
flag).  Type 1: unpack the timestamp (raises `struct.error` on a short
slice), update `start_time_stamp`/`last_time_stamp`, unpack the 25
channel floats from `data[23:]` (raises unless exactly 100 bytes
remain), and append the formatted line plus a newline to the file.  Any
other type reaches line 1130, which calls `insert_text` with the
misspelled keyword `textbox` (the parameter is named `text_box`) and
therefore raises `TypeError`. -/
def handle_frame (st : SessionSt) (header body : List ℕ) : Except PyError (Bool × SessionSt) :=
  let packet_type := intFromBytesBE (pySlice header 5 6)
  let data := header ++ body
  if packet_type = 5 then
    let event_code := intFromBytesBE (pySlice data 12 16)
    let event_string := (DSI_EVENT_CODES event_code).getD "UNKNOWN"
    let st1 := logAdd st (.eventPacket event_string)
    if event_code = 2 then
      .ok (true, { logAdd st1 .beginningCollection with timer_running := true })
    else .ok (true, st1)
  else if packet_type = 1 then
    match unpackF (pySlice data 12 16) with
    | .error e => .error e
    | .ok ts =>
      let st1 : SessionSt :=
        { st with
          start_time_stamp := if st.start_time_stamp = none then some ts else st.start_time_stamp
          last_time_stamp := some ts }
      match unpack25F (pySlice data 23 data.length) with
      | .error e => .error e
      | .ok eeg =>
        let line := pyStrF32 ts ++ "," ++ String.intercalate "," (eeg.map pyStrF32)
        .ok (true, { st1 with file := st1.file ++ line ++ "\n" })
  else
    .error .typeError

/-- Embedding of `receive_and_handle_data` (lines 1081-1132): read the
12-byte header, read `data_length` body bytes (a zero length yields an
empty byte string, which the `if not new_data` test treats like a closed
transport), then dispatch on the frame.  Returns the Python return value
(`False` for a transport failure, `True` otherwise), the new session
state, and the remaining stream. -/
def receive_and_handle_data (st : SessionSt) (s : RecvStream) :
    Except PyError (Bool × SessionSt × RecvStream) :=
  match recvall s 12 with
  | (none, s1) => .ok (false, logAdd st .noDataRemaining, s1)
  | (some data0, s1) =>
    if data0.isEmpty then .ok (false, logAdd st .noDataRemaining, s1) else
    match recvall s1 (intFromBytesBE (pySlice data0 6 8)) with
    | (none, s2) => .ok (false, logAdd st .noDataRemaining, s2)
    | (some new_data, s2) =>
      if new_data.isEmpty then .ok (false, logAdd st .noDataRemaining, s2) else
      match handle_frame st data0 new_data with
      | .error e => .error e
      | .ok (b, st1) => .ok (b, st1, s2)

/-! ## Acquisition loop and drain (`socket_loop`, lines 993-1028) -/

/-- First acquisition loop, `while self.socket_running` (lines 994-996):
`flagTrue` is the number of loop-condition checks that observe a true
`socket_running` flag before the timer or the user clears it (the flag
is written by other threads, so it is a schedule parameter of the
model); the loop also breaks when `receive_and_handle_data` returns
false. -/
def streamLoop : ℕ → SessionSt → RecvStream → Except PyError (SessionSt × RecvStream)
  | 0, st, s => .ok (st, s)
  | flagTrue + 1, st, s =>
    match receive_and_handle_data st s with
    | .error e => .error e
    | .ok (false, st1, s1) => .ok (st1, s1)
    | .ok (true, st1, s1) => streamLoop flagTrue st1 s1

lemma recvallGo_measure {s : RecvStream} :
    ∀ {need : ℕ} {acc d : List ℕ} {s2 : RecvStream},
      recvallGo s need acc = (some d, s2) → streamMeasure s2 + need ≤ streamMeasure s := by
  induction s with
  | nil =>
    intro need acc d s2 h
    simp only [recvallGo] at h
    split at h
    · rename_i h0
      cases h
      simp [h0]
    · cases h
  | cons hd rest ih =>
    intro need acc d s2 h
    cases hd with
    | none =>
      simp only [recvallGo] at h
      split at h
      · rename_i h0
        cases h
        simp [h0]
      · cases h
    | some c =>
      simp only [recvallGo] at h
      split at h
      · rename_i h0
        cases h
        simp [h0]
      · split at h
        · cases h
        · split at h
          · rename_i hne _ hlt
            cases h
            simp only [streamMeasure, List.map_cons, List.sum_cons, List.length_cons, chunkBytes]
            have : (c.drop need).length = c.length - need := List.length_drop ..
            omega
          · rename_i hne _ hge
            have := ih h
            simp only [streamMeasure, List.map_cons, List.sum_cons, List.length_cons, chunkBytes]
            simp only [streamMeasure] at this
            omega

lemma recvall_measure {s : RecvStream} {count : ℕ} {d : List ℕ} {s2 : RecvStream}
    (h : recvall s count = (some d, s2)) : streamMeasure s2 + count ≤ streamMeasure s :=
  recvallGo_measure h

lemma receive_true_measure {st : SessionSt} {s : RecvStream} {st1 : SessionSt} {s1 : RecvStream}
    (h : receive_and_handle_data st s = .ok (true, st1, s1)) :
    streamMeasure s1 < streamMeasure s := by
  unfold receive_and_handle_data at h
  split at h
  · cases h
  · rename_i data0 sa h12
    split at h
    · cases h
    · split at h
      · cases h
      · rename_i snd new_data sb hbody
        split at h
        · cases h
        · split at h
          · cases h
          · rename_i b st2 hframe
            have h1 : streamMeasure sa + 12 ≤ streamMeasure s := recvall_measure h12
            have h2 : streamMeasure sb + intFromBytesBE (pySlice data0 6 8) ≤ streamMeasure sa :=
              recvall_measure hbody
            cases h
            omega

/-- Backlog drain loop, `while last - start < duration` (lines
1008-1012): identical packet handling, not guarded by `socket_running`;
it exits when the captured device-clock span reaches the collection
duration or when `receive_and_handle_data` returns false (the returned
Bool records the latter).  The unguarded timestamp subtraction raises
`TypeError` when either timestamp is still `None`. -/
def drainLoop (dur : ℚ) (st : SessionSt) (s : RecvStream) :
    Except PyError (SessionSt × RecvStream × Bool) :=
  match pySubOpt st.last_time_stamp st.start_time_stamp with
  | .error e => .error e
  | .ok captured =>
    if pyLtF captured (.finite dur) then
      match hrec : receive_and_handle_data st s with
      | .error e => .error e
      | .ok (false, st1, s1) => .ok (st1, s1, true)
      | .ok (true, st1, s1) => drainLoop dur st1 s1
    else .ok (st, s, false)
termination_by streamMeasure s
decreasing_by exact receive_true_measure hrec

/-- Observable outcome of a session whose `socket_loop` thread ran to
completion: the timestamps at drain exit (before the reset at lines
1022-1023), whether the drain loop exited through a transport failure,
the final session state, the unread stream, and the close flags set by
lines 1014-1015. -/
structure SessionFinal where
  final_start : Option F32
  final_last : Option F32
  backlog_mark : Option F32
  drainFailed : Bool
  st : SessionSt
  stream : RecvStream
  socketClosed : Bool
  fileClosed : Bool
deriving DecidableEq, Repr

/-- Backlog notice (lines 1000-1004): when the captured span is still
short of the collection duration, warn that backlog data is being
captured. -/
def warnBacklog (dur : ℚ) (captured0 : F32) (st : SessionSt) : SessionSt :=
  if pyLtF captured0 (.finite dur) then logAdd (logAdd st .capturingBacklog) .backlogWarning
  else st

/-- Record `backlog_time_stamp = last_time_stamp` at drain entry
(line 1006). -/
def backlogMark (st : SessionSt) : SessionSt :=
  { st with backlog_time_stamp := st.last_time_stamp }

/-- Exit path of `socket_loop` (lines 1014-1028): socket and file are
closed, the four summary lines and the final notice are logged, and the
timestamps are reset to `None`. -/
def closeSession (st4 : SessionSt) (s4 : RecvStream) (failed : Bool) (span : F32) :
    SessionFinal :=
  let st5 := logAdd (logAdd (logAdd (logAdd st4 (.backlogSummary span))
    (.collectionBeganAt st4.start_time_stamp)) (.backlogBeganAt st4.backlog_time_stamp))
    (.backlogEndedAt st4.last_time_stamp)
  let st6 := { st5 with start_time_stamp := none, last_time_stamp := none }
  { final_start := st4.start_time_stamp
    final_last := st4.last_time_stamp
    backlog_mark := st4.backlog_time_stamp
    drainFailed := failed
    st := logAdd st6 .loopEnding
    stream := s4
    socketClosed := true
    fileClosed := true }

/-- Embedding of `socket_loop` (lines 993-1028): run the streaming loop,
evaluate the backlog check at line 1000 (which raises `TypeError` when
no Data packet ever set the timestamps), record the backlog mark, run
the drain loop, and close.  A raised exception propagates out of the
thread: no `SessionFinal` is produced and the close calls at lines
1014-1015 never run. -/
def socket_loop (flagTrue : ℕ) (dur : ℚ) (st0 : SessionSt) (s0 : RecvStream) :
    Except PyError SessionFinal :=
  match streamLoop flagTrue st0 s0 with
  | .error e => .error e
  | .ok (st1, s1) =>
    match pySubOpt st1.last_time_stamp st1.start_time_stamp with
    | .error e => .error e
    | .ok captured0 =>
      match drainLoop dur (backlogMark (warnBacklog dur captured0 st1)) s1 with
      | .error e => .error e
      | .ok (st4, s4, failed) =>
        match pySubOpt st4.last_time_stamp st4.backlog_time_stamp with
        | .error e => .error e
        | .ok span => .ok (closeSession st4 s4 failed span)

/-! ## Concrete frames used by the scenario theorems -/

/-- A 12-byte frame header carrying the given packet type at offset 5 and
the big-endian body length at offsets 6-7. -/
def dsiHeader (ptype blen : ℕ) : List ℕ :=
  [64, 65, 66, 67, 68, ptype, blen / 256, blen % 256, 0, 0, 0, 0]

/-- An Event frame with code 2 (Data Start). -/
def eventStartFrame : List ℕ := dsiHeader 5 4 ++ [0, 0, 0, 2]

/-- A frame whose packet type (0) is neither 1 nor 5. -/
def reservedFrame : List ℕ := dsiHeader 0 1 ++ [0]

/-- One hundred bytes encoding the 25 big-endian binary32 values
0.0, 1.0, ..., 24.0. -/
def channelBytes : List ℕ :=
  [0, 0, 0, 0] ++ [63, 128, 0, 0] ++ [64, 0, 0, 0] ++ [64, 64, 0, 0] ++ [64, 128, 0, 0] ++
  [64, 160, 0, 0] ++ [64, 192, 0, 0] ++ [64, 224, 0, 0] ++ [65, 0, 0, 0] ++ [65, 16, 0, 0] ++
  [65, 32, 0, 0] ++ [65, 48, 0, 0] ++ [65, 64, 0, 0] ++ [65, 80, 0, 0] ++ [65, 96, 0, 0] ++
  [65, 112, 0, 0] ++ [65, 128, 0, 0] ++ [65, 136, 0, 0] ++ [65, 144, 0, 0] ++ [65, 152, 0, 0] ++
  [65, 160, 0, 0] ++ [65, 168, 0, 0] ++ [65, 176, 0, 0] ++ [65, 184, 0, 0] ++ [65, 192, 0, 0]

/-- Body of a Data frame (111 bytes): big-endian binary32 timestamp 3.5,
seven filler bytes, then the 25 channel values. -/
def dataBody35 : List ℕ := [64, 96, 0, 0] ++ [0, 0, 0, 0, 0, 0, 0] ++ channelBytes

/-- Body identical to `dataBody35` except that its timestamp is 16.0. -/
def dataBody16 : List ℕ := [65, 128, 0, 0] ++ [0, 0, 0, 0, 0, 0, 0] ++ channelBytes

/-- A complete Data frame with timestamp 3.5: the channel values sit at
frame offsets 23-122. -/
def dataFrame35 : List ℕ := dsiHeader 1 111 ++ dataBody35

/-- A complete Data frame with timestamp 16.0. -/
def dataFrame16 : List ℕ := dsiHeader 1 111 ++ dataBody16

/-- A session state in which both device timestamps have already been
set to 0.0 by an earlier Data packet. -/
def sessionPreset : SessionSt :=
  { sessionInit with start_time_stamp := some (.finite 0), last_time_stamp := some (.finite 0) }

/-! ## Formatter lemmas -/

lemma decDigits_zero (fuel d : ℕ) : decDigits fuel 0 d = [] := by
  cases fuel <;> simp [decDigits]

lemma pyStrQ_natCast (n : ℕ) : pyStrQ (n : ℚ) = toString n ++ ".0" := by
  have hnn : ¬((n : ℤ) < 0) := by omega
  simp [pyStrQ, decDigits_zero, hnn, Nat.mod_one]
  rw [String.append_assoc]
  rfl

lemma pyStrQ_sevenHalves : pyStrQ (7 / 2) = "3.5" := by
  have h1 : ((7 : ℚ) / 2).num = 7 := Rat.num_div_eq_of_coprime (by norm_num) (by norm_num)
  have h0 : (((7 : ℤ) : ℚ) / ((2 : ℤ) : ℚ)).den = 2 := by
    have h := Rat.den_div_eq_of_coprime (show (0 : ℤ) < 2 by decide)
      (show Nat.Coprime (7 : ℤ).natAbs (2 : ℤ).natAbs by decide)
    omega
  have h2 : ((7 : ℚ) / 2).den = 2 := by
    rw [show ((7 : ℚ) = ((7 : ℤ) : ℚ)) by norm_num, show ((2 : ℚ) = ((2 : ℤ) : ℚ)) by norm_num]
    exact h0
  rw [pyStrQ, h1, h2]
  decide

/-! ## Dict and timeline lemmas -/

lemma any_key_eq_mem (d : List (ℚ × String)) (k : ℚ) :
    (d.any fun p => decide (p.1 = k)) = true ↔ k ∈ keysOf d := by
  simp only [keysOf, List.any_eq_true, List.mem_map, decide_eq_true_eq]

lemma keysOf_append (d e : List (ℚ × String)) :
    keysOf (d ++ e) = keysOf d ++ keysOf e := by
  simp [keysOf]

lemma keysOf_dictInsert_of_mem {d : List (ℚ × String)} {k : ℚ} (v : String)
    (h : k ∈ keysOf d) : keysOf (dictInsert d k v) = keysOf d := by
  unfold dictInsert
  rw [if_pos ((any_key_eq_mem d k).mpr h)]
  unfold keysOf
  rw [List.map_map]
  apply List.map_congr_left
  intro p _
  by_cases hp : p.1 = k
  · simp [hp]
  · simp [hp]

lemma dictInsert_of_not_mem {d : List (ℚ × String)} {k : ℚ} (v : String)
    (h : k ∉ keysOf d) : dictInsert d k v = d ++ [(k, v)] := by
  unfold dictInsert
  rw [if_neg]
  intro hc
  exact h ((any_key_eq_mem d k).mp hc)

/-- Invariant of `prompt_dictionary` during construction: the keys are
non-decreasing in insertion order and the most recently inserted key is
the running maximum `last`. -/
def dictInv (d : List (ℚ × String)) (last : ℚ) : Prop :=
  (keysOf d).Pairwise (· ≤ ·) ∧ (keysOf d).getLast? = some last

lemma mem_le_getLast {l : List ℚ} {b x : ℚ}
    (hp : l.Pairwise (· ≤ ·)) (hx : x ∈ l) (hb : l.getLast? = some b) : x ≤ b := by
  induction l with
  | nil => cases hx
  | cons a t ih =>
    cases t with
    | nil =>
      simp only [List.getLast?_singleton, Option.some.injEq] at hb
      simp only [List.mem_singleton] at hx
      exact le_of_eq (hx.trans hb)
    | cons a2 t2 =>
      rw [List.getLast?_cons_cons] at hb
      rcases List.mem_cons.mp hx with hx1 | hx2
      · subst hx1
        have hmem : b ∈ a2 :: t2 := List.mem_of_getLast?_eq_some hb
        exact (List.pairwise_cons.mp hp).1 b hmem
      · exact ih (List.pairwise_cons.mp hp).2 hx2 hb

lemma dictInv_mem_le {d : List (ℚ × String)} {last x : ℚ}
    (h : dictInv d last) (hx : x ∈ keysOf d) : x ≤ last :=
  mem_le_getLast h.1 hx h.2

lemma dictInsert_inv {d : List (ℚ × String)} {last k : ℚ} (v : String)
    (h : dictInv d last) (hk : last ≤ k) : dictInv (dictInsert d k v) k := by
  by_cases hmem : k ∈ keysOf d
  · have hkeys := keysOf_dictInsert_of_mem v hmem
    have hkl : k ≤ last := dictInv_mem_le h hmem
    have : last = k := le_antisymm hk hkl
    exact ⟨hkeys ▸ h.1, by rw [hkeys, h.2, this]⟩
  · rw [dictInsert_of_not_mem v hmem]
    constructor
    · rw [keysOf_append]
      refine List.pairwise_append.mpr ⟨h.1, List.pairwise_singleton _ _, ?_⟩
      intro x hx y hy
      simp only [keysOf, List.map_cons, List.map_nil, List.mem_singleton] at hy
      exact hy ▸ (dictInv_mem_le h hx).trans hk
    · rw [keysOf_append]
      simp [keysOf, List.getLast?_append]

lemma dictInsert_length_of_not_mem {d : List (ℚ × String)} {k : ℚ} (v : String)
    (h : k ∉ keysOf d) : (dictInsert d k v).length = d.length + 1 := by
  rw [dictInsert_of_not_mem v h]
  simp

/-- Loop invariant of the timeline builder under non-negative spans: the
dict invariant is preserved and `last_timestamp` advances by
`n * (relax + action)`. -/
lemma buildTimelineGo_inv (relax action : ℚ) (prompt : String)
    (hr : 0 ≤ relax) (ha : 0 ≤ action) :
    ∀ (n : ℕ) (last : ℚ) (d : List (ℚ × String)), dictInv d last →
      (buildTimelineGo relax action prompt n last d).1 = last + n * (relax + action) ∧
      dictInv (buildTimelineGo relax action prompt n last d).2.1
        (buildTimelineGo relax action prompt n last d).1 := by
  intro n
  induction n with
  | zero => intro last d h; simpa [buildTimelineGo] using h
  | succ m ih =>
    intro last d h
    have h1 : dictInv (dictInsert d (relax + last) prompt) (relax + last) :=
      dictInsert_inv prompt h (by linarith)
    have h2 : dictInv (dictInsert (dictInsert d (relax + last) prompt)
        (action + (relax + last)) RELAX_PROMPT) (action + (relax + last)) :=
      dictInsert_inv _ h1 (by linarith)
    have := ih (action + (relax + last)) _ h2
    refine ⟨?_, ?_⟩
    · simp only [buildTimelineGo]
      rw [this.1]
      push_cast
      ring
    · simpa only [buildTimelineGo] using this.2

/-- Loop invariant under strictly positive spans: additionally every
iteration appends exactly two fresh entries. -/
lemma buildTimelineGo_len (relax action : ℚ) (prompt : String)
    (hr : 0 < relax) (ha : 0 < action) :
    ∀ (n : ℕ) (last : ℚ) (d : List (ℚ × String)), dictInv d last →
      (buildTimelineGo relax action prompt n last d).2.1.length = d.length + 2 * n := by
  intro n
  induction n with
  | zero => intro last d _; simp [buildTimelineGo]
  | succ m ih =>
    intro last d h
    have hnota : relax + last ∉ keysOf d := by
      intro hc
      have := dictInv_mem_le h hc
      linarith
    have h1 : dictInv (dictInsert d (relax + last) prompt) (relax + last) :=
      dictInsert_inv prompt h (by linarith)
    have hnotr : action + (relax + last) ∉ keysOf (dictInsert d (relax + last) prompt) := by
      intro hc
      have := dictInv_mem_le h1 hc
      linarith
    have h2 : dictInv (dictInsert (dictInsert d (relax + last) prompt)
        (action + (relax + last)) RELAX_PROMPT) (action + (relax + last)) :=
      dictInsert_inv _ h1 (by linarith)
    have := ih (action + (relax + last)) _ h2
    simp only [buildTimelineGo]
    rw [this, dictInsert_length_of_not_mem _ hnotr, dictInsert_length_of_not_mem _ hnota]
    ring

/-- Write keys recorded by the loop: they dominate the entry value of
`last_timestamp`, they are chained non-decreasingly, and they are
bounded by the final `last_timestamp`. -/
lemma buildTimelineGo_writes (relax action : ℚ) (prompt : String)
    (hr : 0 ≤ relax) (ha : 0 ≤ action) :
    ∀ (n : ℕ) (last : ℚ) (d : List (ℚ × String)),
      List.Chain' (· ≤ ·) (last :: (buildTimelineGo relax action prompt n last d).2.2) ∧
      (last :: (buildTimelineGo relax action prompt n last d).2.2).getLast? =
        some (buildTimelineGo relax action prompt n last d).1 := by
  intro n
  induction n with
  | zero => intro last d; simp [buildTimelineGo]
  | succ m ih =>
    intro last d
    have hIH := ih (action + (relax + last))
      (dictInsert (dictInsert d (relax + last) prompt) (action + (relax + last)) RELAX_PROMPT)
    constructor
    · simp only [buildTimelineGo]
      exact List.Chain'.cons (by linarith)
        (List.Chain'.cons (by linarith) hIH.1)
    · simp only [buildTimelineGo]
      rw [List.getLast?_cons_cons, List.getLast?_cons_cons]
      exact hIH.2

lemma dictInv_init : dictInv (dictInsert [] 0 RELAX_PROMPT) 0 := by
  constructor
  · simp [dictInsert, keysOf]
  · simp [dictInsert, keysOf]

/-- Final key of the built dict: for non-negative spans the last key of
`prompt_dictionary` in insertion order, which the source returns as the
collection duration, equals `loops * (relax + action) + relax`. -/
lemma determine_collection_duration_eq (relax action : ℚ) (loops : ℕ) (prompt : String)
    (hr : 0 ≤ relax) (ha : 0 ≤ action) :
    (determine_collection_duration relax action loops prompt).1 =
      loops * (relax + action) + relax := by
  have hgo := buildTimelineGo_inv relax action prompt hr ha loops 0 _ dictInv_init
  have hfin : dictInv
      (dictInsert (buildTimelineGo relax action prompt loops 0
        (dictInsert [] 0 RELAX_PROMPT)).2.1
        ((buildTimelineGo relax action prompt loops 0 (dictInsert [] 0 RELAX_PROMPT)).1 + relax)
        RELAX_PROMPT)
      ((buildTimelineGo relax action prompt loops 0 (dictInsert [] 0 RELAX_PROMPT)).1 + relax) :=
    dictInsert_inv _ hgo.2 (by linarith)
  simp only [determine_collection_duration]
  rw [hfin.2]
  simp only [Option.getD_some]
  rw [hgo.1]
  ring

/-! ## Claim theorems: timeline builder -/

/-- C5, counterexample: with `relaxSeconds = 2`, `actionSeconds = 3` and
`loopCount = 0` the built Timeline holds two entries, Relax at 0 and
Relax at 2, not the single entry the claim states (the duration does
equal `relaxSeconds`). -/
theorem claim_C5_counterexample :
    (determine_collection_duration 2 3 0 "Fist").2.1 = [(0, "Relax"), (2, "Relax")] ∧
    (determine_collection_duration 2 3 0 "Fist").2.1.length ≠ 1 := by
  norm_num [determine_collection_duration, buildTimelineGo, dictInsert, keysOf, RELAX_PROMPT]

/-- C5, amended: for `loopCount = 0` and `relaxSeconds > 0` the built
Timeline contains exactly two entries — `"Relax"` at key 0 (written
before the loop) and `"Relax"` at key `relaxSeconds` (the trailing relax
span) — and NominalDuration equals `relaxSeconds`. -/
theorem claim_C5_amended (relax action : ℚ) (prompt : String) (hr : 0 < relax) :
    (determine_collection_duration relax action 0 prompt).2.1 =
      [(0, RELAX_PROMPT), (relax, RELAX_PROMPT)] ∧
    (determine_collection_duration relax action 0 prompt).1 = relax := by
  have hne : (0 : ℚ) + relax ∉ keysOf (dictInsert [] 0 RELAX_PROMPT) := by
    simp [dictInsert, keysOf]
    intro h
    linarith
  constructor
  · simp only [determine_collection_duration, buildTimelineGo]
    rw [dictInsert_of_not_mem _ hne]
    simp [dictInsert, zero_add]
  · simp only [determine_collection_duration, buildTimelineGo]
    rw [dictInsert_of_not_mem _ hne]
    simp [dictInsert, keysOf, zero_add]

/-- C5, witness: the amended statement evaluated at
`relaxSeconds = 2`, `actionSeconds = 3`. -/
theorem claim_C5_witness :
    (determine_collection_duration 2 3 0 "Fist").2.1 =
      [(0, RELAX_PROMPT), (2, RELAX_PROMPT)] ∧
    (determine_collection_duration 2 3 0 "Fist").1 = 2 :=
  claim_C5_amended 2 3 "Fist" (by norm_num)

/-- C6, counterexample: with `relaxSeconds = 0`, `actionSeconds = 1` and
`loopCount = 1` (all within the claimed `relaxSeconds >= 0`,
`actionSeconds >= 0` range) the built Timeline holds 2 entries, not
`2 * 1 + 2 = 4`: the zero-length relax span makes the first action
write collide with the initial Relax key and the trailing relax write
collide with the loop's relax key. -/
theorem claim_C6_counterexample :
    (determine_collection_duration 0 1 1 "Fist").2.1.length = 2 ∧ (2 : ℕ) ≠ 2 * 1 + 2 := by
  norm_num [determine_collection_duration, buildTimelineGo, dictInsert, keysOf, RELAX_PROMPT]

/-- C6, amended: for strictly positive `relaxSeconds` and
`actionSeconds` the built Timeline contains exactly `2 L + 2` entries,
and the keys written during construction are non-decreasing in
construction order; with a zero-length span a later write can land on an
existing key and the entry count drops below `2 L + 2`. -/
theorem claim_C6_amended (relax action : ℚ) (L : ℕ) (prompt : String)
    (hr : 0 < relax) (ha : 0 < action) :
    (determine_collection_duration relax action L prompt).2.1.length = 2 * L + 2 ∧
    List.Chain' (· ≤ ·) (determine_collection_duration relax action L prompt).2.2 := by
  have hr0 : (0 : ℚ) ≤ relax := le_of_lt hr
  have ha0 : (0 : ℚ) ≤ action := le_of_lt ha
  have hinv := buildTimelineGo_inv relax action prompt hr0 ha0 L 0 _ dictInv_init
  have hlen := buildTimelineGo_len relax action prompt hr ha L 0 _ dictInv_init
  have hw := buildTimelineGo_writes relax action prompt hr0 ha0 L 0 (dictInsert [] 0 RELAX_PROMPT)
  constructor
  · have hnot : (buildTimelineGo relax action prompt L 0 (dictInsert [] 0 RELAX_PROMPT)).1 + relax ∉
        keysOf (buildTimelineGo relax action prompt L 0 (dictInsert [] 0 RELAX_PROMPT)).2.1 := by
      intro hc
      have := dictInv_mem_le hinv.2 hc
      linarith
    simp only [determine_collection_duration]
    rw [dictInsert_length_of_not_mem _ hnot, hlen]
    simp [dictInsert]
    omega
  · simp only [determine_collection_duration]
    rw [show (0 : ℚ) :: ((buildTimelineGo relax action prompt L 0
        (dictInsert [] 0 RELAX_PROMPT)).2.2 ++
        [(buildTimelineGo relax action prompt L 0 (dictInsert [] 0 RELAX_PROMPT)).1 + relax]) =
      ((0 : ℚ) :: (buildTimelineGo relax action prompt L 0
        (dictInsert [] 0 RELAX_PROMPT)).2.2) ++
        [(buildTimelineGo relax action prompt L 0 (dictInsert [] 0 RELAX_PROMPT)).1 + relax]
      from rfl]
    refine List.chain'_append.mpr ⟨hw.1, List.chain'_singleton _, ?_⟩
    intro x hx y hy
    simp only [List.head?_cons, Option.mem_def, Option.some.injEq] at hy
    rw [hw.2] at hx
    simp only [Option.mem_def, Option.some.injEq] at hx
    subst hx
    subst hy
    linarith

/-- C6, witness: the amended statement evaluated at
`relaxSeconds = 2`, `actionSeconds = 3`, `loopCount = 2`. -/
theorem claim_C6_witness :
    (determine_collection_duration 2 3 2 "Fist").2.1.length = 2 * 2 + 2 ∧
    List.Chain' (· ≤ ·) (determine_collection_duration 2 3 2 "Fist").2.2 :=
  claim_C6_amended 2 3 2 "Fist" (by norm_num) (by norm_num)

/-- C7: for non-negative spans the returned collection duration equals
`L * (relaxSeconds + actionSeconds) + relaxSeconds`, and with
`relaxSeconds = 2`, `actionSeconds = 3`, `loopCount = 2` the key
sequence written during construction is `0, 2, 5, 7, 10, 12` with
duration 12. -/
theorem claim_C7_duration (relax action : ℚ) (L : ℕ) (prompt : String)
    (hr : 0 ≤ relax) (ha : 0 ≤ action) :
    (determine_collection_duration relax action L prompt).1 = L * (relax + action) + relax ∧
    (determine_collection_duration 2 3 2 "Fist").2.2 = [0, 2, 5, 7, 10, 12] ∧
    (determine_collection_duration 2 3 2 "Fist").1 = 12 := by
  refine ⟨determine_collection_duration_eq relax action L prompt hr ha, ?_, ?_⟩ <;>
    norm_num [determine_collection_duration, buildTimelineGo, dictInsert, keysOf, RELAX_PROMPT]

/-- C7, witness: the duration formula evaluated at
`relaxSeconds = 2`, `actionSeconds = 3`, `loopCount = 2`. -/
theorem claim_C7_witness :
    (determine_collection_duration 2 3 2 "Fist").1 = (2 : ℕ) * ((2 : ℚ) + 3) + 2 :=
  (claim_C7_duration 2 3 2 "Fist" (by norm_num) (by norm_num)).1

/-! ## Claim theorems: transport -/

lemma recvallGo_length {s : RecvStream} :
    ∀ {need : ℕ} {acc d : List ℕ} {s2 : RecvStream},
      recvallGo s need acc = (some d, s2) → d.length = acc.length + need := by
  induction s with
  | nil =>
    intro need acc d s2 h
    simp only [recvallGo] at h
    split at h
    · rename_i h0
      cases h
      simp [h0]
    · cases h
  | cons hd rest ih =>
    intro need acc d s2 h
    cases hd with
    | none =>
      simp only [recvallGo] at h
      split at h
      · rename_i h0
        cases h
        simp [h0]
      · cases h
    | some c =>
      simp only [recvallGo] at h
      split at h
      · rename_i h0
        cases h
        simp [h0]
      · split at h
        · cases h
        · split at h
          · rename_i hne _ hlt
            cases h
            simp only [List.length_append, List.length_take]
            omega
          · rename_i hne _ hge
            have := ih h
            simp only [List.length_append] at this
            omega

/-- C9: `recvall` never surfaces a partial read — whenever it returns a
byte sequence at all, that sequence has length exactly `n`; every other
outcome (peer closed, OS-level fault) is the `None` failure result. -/
theorem claim_C9_recvall_exact (s : RecvStream) (n : ℕ) (d : List ℕ) (s2 : RecvStream)
    (hn : 0 < n) (h : recvall s n = (some d, s2)) : d.length = n := by
  have := recvallGo_length h
  simpa using this

/-- C9, witness: a two-byte read from a three-byte chunk returns exactly
the first two bytes. -/
theorem claim_C9_witness : ([1, 2] : List ℕ).length = 2 :=
  claim_C9_recvall_exact [some [1, 2, 3]] 2 [1, 2] [some [3]] (by norm_num) rfl

/-! ## Claim theorems: clock -/

lemma time_loop_run_no_fire (timeline : List (ℚ × String)) (dur : ℚ) (hdur : 60 ≤ dur) :
    ∀ (n : ℕ) (st : ClockSt), st.seconds < 60 → (time_loop_run timeline dur n st).2 = false := by
  intro n
  induction n with
  | zero => intro st _; rfl
  | succ m ih =>
    intro st hst
    simp only [time_loop_run, time_tick]
    by_cases h60 : st.seconds + 1 = 60
    · have hz : ((0 : ℕ) : ℚ) ≠ dur := by
        push_cast
        linarith
      simp only [h60, if_pos, if_true, hz, decide_eq_false hz]
      simpa using ih ⟨0, st.minutes + 1⟩ (by norm_num)
    · have hlt : st.seconds + 1 < 60 := by omega
      have hz : ((st.seconds + 1 : ℕ) : ℚ) ≠ dur := by
        push_cast
        have : ((st.seconds : ℚ) + 1) < 60 := by exact_mod_cast hlt
        linarith
      simp only [h60, if_false, decide_eq_false hz]
      simpa using ih ⟨st.seconds + 1, st.minutes⟩ hlt

/-- C3: the timer compares the wrapped seconds counter (which is reset
to 0 upon reaching 60) against the full collection duration, so for any
duration of 60 seconds or more the expiry test never fires and the
Clock never signals the session to stop — refuting the claim for those
durations — while a 12-second duration does fire on the 12th tick. -/
theorem claim_C3_wrap :
    (∀ (timeline : List (ℚ × String)) (dur : ℚ) (n : ℕ) (st : ClockSt),
      60 ≤ dur → st.seconds < 60 → (time_loop_run timeline dur n st).2 = false) ∧
    (time_loop_run [] 12 12 ⟨0, 0⟩).2 = true ∧
    (time_loop_run [] 60 70 ⟨0, 0⟩).2 = false := by
  refine ⟨fun timeline dur n st h1 h2 => time_loop_run_no_fire timeline dur h1 n st h2, ?_, ?_⟩ <;>
    norm_num [time_loop_run, time_tick]

/-- C3, witness: the never-fires statement evaluated at duration 60 with
a fresh clock over 70 ticks. -/
theorem claim_C3_witness : (time_loop_run [] 60 70 ⟨0, 0⟩).2 = false :=
  claim_C3_wrap.1 [] 60 70 ⟨0, 0⟩ (by norm_num) (by norm_num)

/-! ## Claim theorems: packet handling -/

/-- C4: a frame whose packet type is neither 1 nor 5 does not produce a
quietly-logged reserved packet: the reserved branch at line 1130 calls
`insert_text` with the misspelled keyword argument `textbox`, so the
handler raises `TypeError` for every such frame, and the acquisition
loop terminates with the exception instead of continuing. -/
theorem claim_C4_reserved_raises :
    (∀ (st : SessionSt) (blen : ℕ) (body : List ℕ) (t : ℕ), t ≠ 1 → t ≠ 5 →
      handle_frame st (dsiHeader t blen) body = .error PyError.typeError) ∧
    receive_and_handle_data sessionInit [some reservedFrame] = .error .typeError ∧
    socket_loop 1 12 sessionInit [some reservedFrame] = .error .typeError := by
  refine ⟨?_, rfl, rfl⟩
  intro st blen body t h1 h5
  have hpt : intFromBytesBE (pySlice (dsiHeader t blen) 5 6) = t := by
    simp [intFromBytesBE, pySlice, dsiHeader, List.foldl]
  simp only [handle_frame, hpt]
  simp [h1, h5]

/-- C4, witness: the reserved-type statement evaluated at packet type 0
with a one-byte body. -/
theorem claim_C4_witness :
    handle_frame sessionInit (dsiHeader 0 1) [0] = .error PyError.typeError :=
  claim_C4_reserved_raises.1 sessionInit 1 [0] 0 (by decide) (by decide)

lemma unpackF32List_channelBytes :
    unpackF32List channelBytes = (List.range 25).map (fun (i : ℕ) => F32.finite (i : ℚ)) := by
  rw [show List.range 25 =
    [0, 1, 2, 3, 4, 5, 6, 7, 8, 9, 10, 11, 12, 13, 14, 15, 16, 17, 18, 19, 20, 21, 22, 23, 24]
    from rfl]
  norm_num [channelBytes, unpackF32List, decodeF32, intFromBytesBE]

lemma channel_line :
    String.intercalate ","
      (List.map (pyStrF32 ∘ fun (i : ℕ) => F32.finite (i : ℚ)) (List.range 25)) =
    "0.0,1.0,2.0,3.0,4.0,5.0,6.0,7.0,8.0,9.0,10.0,11.0,12.0,13.0,14.0,15.0,16.0,17.0,18.0,19.0,20.0,21.0,22.0,23.0,24.0" := by
  rw [List.map_congr_left (fun (i : ℕ) _ => by
    show (pyStrF32 ∘ fun (i : ℕ) => F32.finite (i : ℚ)) i = toString i ++ ".0"
    simp only [Function.comp, pyStrF32]
    exact pyStrQ_natCast i)]
  decide

/-- C8: decoding the synthetic Data frame with timestamp 3.5 and channel
values 0.0 ... 24.0 recovers exactly those values, and handling the
frame appends exactly the line `3.5,0.0,1.0,...,24.0` followed by a
newline to the output file, with both timestamps set to 3.5. -/
theorem claim_C8_roundtrip :
    unpackF (pySlice dataFrame35 12 16) = .ok (.finite (7 / 2)) ∧
    unpack25F (pySlice dataFrame35 23 dataFrame35.length) =
      .ok ((List.range 25).map (fun (i : ℕ) => F32.finite (i : ℚ))) ∧
    receive_and_handle_data sessionInit [some dataFrame35] =
      .ok (true,
        { start_time_stamp := some (.finite (7 / 2)), last_time_stamp := some (.finite (7 / 2)),
          backlog_time_stamp := none, timer_running := false,
          file := "3.5,0.0,1.0,2.0,3.0,4.0,5.0,6.0,7.0,8.0,9.0,10.0,11.0,12.0,13.0,14.0,15.0,16.0,17.0,18.0,19.0,20.0,21.0,22.0,23.0,24.0\n",
          log := [] }, []) := by
  have hts : unpackF (pySlice dataFrame35 12 16) = .ok (.finite (7 / 2)) := by
    rw [show pySlice dataFrame35 12 16 = [64, 96, 0, 0] from rfl]
    rw [show unpackF [64, 96, 0, 0] = .ok (decodeF32 [64, 96, 0, 0]) from rfl]
    simp only [decodeF32, intFromBytesBE]
    norm_num
  have hchan : unpack25F (pySlice dataFrame35 23 dataFrame35.length) =
      .ok ((List.range 25).map (fun (i : ℕ) => F32.finite (i : ℚ))) := by
    rw [show pySlice dataFrame35 23 dataFrame35.length = channelBytes from rfl]
    rw [show unpack25F channelBytes = .ok (unpackF32List channelBytes) from rfl]
    rw [unpackF32List_channelBytes]
  refine ⟨hts, hchan, ?_⟩
  rw [show receive_and_handle_data sessionInit [some dataFrame35] =
      (match handle_frame sessionInit (dsiHeader 1 111) dataBody35 with
       | .error e => .error e
       | .ok (b, st1) => .ok (b, st1, ([] : RecvStream))) from rfl]
  have hts2 : unpackF (pySlice (dsiHeader 1 111 ++ dataBody35) 12 16) =
      .ok (.finite (7 / 2)) := hts
  have hchan2 : unpack25F (pySlice (dsiHeader 1 111 ++ dataBody35) 23
      (dsiHeader 1 111 ++ dataBody35).length) =
      .ok ((List.range 25).map (fun (i : ℕ) => F32.finite (i : ℚ))) := hchan
  simp only [handle_frame, hts2, hchan2,
    show intFromBytesBE (pySlice (dsiHeader 1 111) 5 6) = 1 from rfl]
  norm_num [pyStrF32, pyStrQ_sevenHalves, channel_line, sessionInit]
  rfl

/-! ## Claim theorems: session state machine -/

lemma drainLoop_ok_false {dur : ℚ} {st : SessionSt} {s : RecvStream} {st2 : SessionSt}
    {s2 : RecvStream} (h : drainLoop dur st s = .ok (st2, s2, false)) :
    ∃ cap, pySubOpt st2.last_time_stamp st2.start_time_stamp = .ok cap ∧
      pyLtF cap (.finite dur) = false := by
  induction st, s using drainLoop.induct dur with
  | case1 st s e heq =>
    rw [drainLoop] at h
    simp only [heq] at h
    exact Except.noConfusion h
  | case2 st s cap heq hlt e hrec =>
    rw [drainLoop] at h
    simp only [heq, hlt, if_true] at h
    split at h
    · exact Except.noConfusion h
    · simp at h
    · rename_i st1 s1 heq2
      rw [hrec] at heq2
      exact Except.noConfusion heq2
  | case3 st s cap heq hlt st1 s1 hrec =>
    rw [drainLoop] at h
    simp only [heq, hlt, if_true] at h
    split at h
    · exact Except.noConfusion h
    · simp at h
    · rename_i st1b s1b heq2
      rw [hrec] at heq2
      simp at heq2
  | case4 st s cap heq hlt st1 s1 hrec ih =>
    rw [drainLoop] at h
    simp only [heq, hlt, if_true] at h
    split at h
    · exact Except.noConfusion h
    · simp at h
    · rename_i st1b s1b heq2
      rw [hrec] at heq2
      simp only [Except.ok.injEq, Prod.mk.injEq, true_and] at heq2
      obtain ⟨hA, hB⟩ := heq2
      subst hA
      subst hB
      exact ih h
  | case5 st s cap heq hlt =>
    rw [drainLoop] at h
    simp only [heq] at h
    rw [if_neg hlt] at h
    simp only [Except.ok.injEq, Prod.mk.injEq] at h
    obtain ⟨h1, h2, -⟩ := h
    subst h1
    exact ⟨cap, heq, by simpa using hlt⟩

lemma socket_loop_ok {flagTrue : ℕ} {dur : ℚ} {st0 : SessionSt} {s0 : RecvStream}
    {fin : SessionFinal} (h : socket_loop flagTrue dur st0 s0 = .ok fin) :
    fin.socketClosed = true ∧ fin.fileClosed = true ∧
    ∃ st3 s1 st4 s4, drainLoop dur st3 s1 = .ok (st4, s4, fin.drainFailed) ∧
      fin.final_start = st4.start_time_stamp ∧ fin.final_last = st4.last_time_stamp := by
  unfold socket_loop at h
  split at h
  · exact Except.noConfusion h
  · rename_i st1 s1 hstream
    split at h
    · exact Except.noConfusion h
    · rename_i cap0 hsub
      split at h
      · exact Except.noConfusion h
      · rename_i st4 s4 failed hdrain
        split at h
        · exact Except.noConfusion h
        · rename_i span hspan
          simp only [Except.ok.injEq] at h
          subst h
          exact ⟨rfl, rfl, backlogMark (warnBacklog dur cap0 st1), s1, st4, s4, hdrain, rfl, rfl⟩

/-- C1: when a session runs to the Closed phase (socket and file closed,
which every non-raising execution of `socket_loop` reaches) and the
drain loop did not exit through a failed `receive_and_handle_data`, the
captured device-clock span `lastDeviceTimestamp - startDeviceTimestamp`
is at least the nominal collection duration: the drain loop's only exits
are span reached and transport failure. -/
theorem claim_C1_drain_complete (flagTrue : ℕ) (dur : ℚ) (st0 : SessionSt) (s0 : RecvStream)
    (fin : SessionFinal) (c : ℚ)
    (hok : socket_loop flagTrue dur st0 s0 = .ok fin)
    (hnofail : fin.drainFailed = false)
    (hfin : pySubOpt fin.final_last fin.final_start = .ok (.finite c)) :
    dur ≤ c ∧ fin.socketClosed = true ∧ fin.fileClosed = true := by
  obtain ⟨hsc, hfc, st3, s1, st4, s4, hdrain, hfs, hfl⟩ := socket_loop_ok hok
  rw [hnofail] at hdrain
  obtain ⟨cap, hcap, hlt⟩ := drainLoop_ok_false hdrain
  rw [hfl, hfs] at hfin
  rw [hfin] at hcap
  have hcc : F32.finite c = cap := by
    injection hcap
  subst hcc
  simp only [pyLtF] at hlt
  exact ⟨not_lt.mp (of_decide_eq_false hlt), hsc, hfc⟩

/-- C1, witness: a session whose timestamps already span the (zero)
collection duration closes immediately with the drain loop exiting on
the completeness condition. -/
theorem claim_C1_witness :
    (0 : ℚ) ≤ 0 ∧
    (closeSession (backlogMark sessionPreset) [] false (.finite (0 - 0))).socketClosed = true ∧
    (closeSession (backlogMark sessionPreset) [] false (.finite (0 - 0))).fileClosed = true := by
  refine claim_C1_drain_complete 0 0 sessionPreset []
    (closeSession (backlogMark sessionPreset) [] false (.finite (0 - 0))) 0 ?_ rfl ?_
  · show socket_loop 0 0 sessionPreset [] = _
    rw [show socket_loop 0 0 sessionPreset [] =
      (match drainLoop 0 (backlogMark (warnBacklog 0 (.finite (0 - 0)) sessionPreset)) [] with
       | .error e => .error e
       | .ok (st4, s4, failed) =>
         match pySubOpt st4.last_time_stamp st4.backlog_time_stamp with
         | .error e => .error e
         | .ok span => .ok (closeSession st4 s4 failed span)) from rfl]
    rw [show warnBacklog 0 (.finite (0 - 0)) sessionPreset = sessionPreset by
      simp [warnBacklog, pyLtF]]
    rw [drainLoop]
    norm_num [pySubOpt, pySub, pyLtF, backlogMark, sessionPreset, sessionInit]
  · norm_num [closeSession, pySubOpt, pySub, backlogMark, sessionPreset, sessionInit]

/-- C2: when the stream delivers one Event frame with code 2 and then
closes before any Data packet, handling the Event frame succeeds (the
timer starts, the timestamps stay `None`), but `socket_loop` does not
complete its exit path: the backlog check at line 1000 computes
`None - None` and raises `TypeError`, so the thread dies without closing
the socket or the file and without any partial-capture report. -/
theorem claim_C2_crash :
    receive_and_handle_data sessionInit [some eventStartFrame] =
      .ok (true,
        { start_time_stamp := none, last_time_stamp := none, backlog_time_stamp := none,
          timer_running := true, file := "",
          log := [.eventPacket "Data Start", .beginningCollection] }, []) ∧
    socket_loop 2 12 sessionInit [some eventStartFrame] = .error PyError.typeError :=
  ⟨rfl, rfl⟩

/-! ## Claim theorems: frame-length safety -/

lemma recvall_header12 (blen : ℕ) (body : List ℕ) (hb : body.length = blen) (h1 : 1 ≤ blen) :
    recvall [some (dsiHeader 1 blen ++ body)] 12 = (some (dsiHeader 1 blen), [some body]) := by
  have hlen : (dsiHeader 1 blen ++ body).length = 12 + blen := by
    simp [dsiHeader, hb]
    omega
  have hhl : (dsiHeader 1 blen).length = 12 := by simp [dsiHeader]
  unfold recvall
  simp only [recvallGo]
  rw [if_neg (by omega : ¬(12 = 0))]
  rw [if_neg (by simp [dsiHeader] : ¬((dsiHeader 1 blen ++ body).isEmpty = true))]
  rw [if_pos (by omega : 12 < (dsiHeader 1 blen ++ body).length)]
  rw [List.nil_append, List.take_left' hhl, List.drop_left' hhl]

lemma recvall_exact_chunk (blen : ℕ) (body : List ℕ) (hb : body.length = blen) (h1 : 1 ≤ blen) :
    recvall [some body] blen = (some body, []) := by
  have hne : ¬(body.isEmpty = true) := by
    simp only [List.isEmpty_iff]
    intro hc
    subst hc
    simp at hb
    omega
  unfold recvall
  simp only [recvallGo]
  rw [if_neg (by omega : ¬(blen = 0)), if_neg hne, if_neg (by omega : ¬(blen < body.length))]
  simp only [recvallGo, hb]
  rw [if_pos (by omega : blen - blen = 0), List.nil_append]

lemma header_packet_type (t blen : ℕ) : intFromBytesBE (pySlice (dsiHeader t blen) 5 6) = t := by
  simp [intFromBytesBE, pySlice, dsiHeader, List.foldl]

lemma header_data_length (t blen : ℕ) : intFromBytesBE (pySlice (dsiHeader t blen) 6 8) = blen := by
  simp [intFromBytesBE, pySlice, dsiHeader, List.foldl]
  omega

lemma frame_ts_slice (blen : ℕ) (body : List ℕ) :
    pySlice (dsiHeader 1 blen ++ body) 12 16 = body.take 4 := by
  have hhl : (dsiHeader 1 blen).length = 12 := by simp [dsiHeader]
  unfold pySlice
  rw [List.take_append_eq_append_take, hhl,
    List.take_of_length_le (by rw [hhl]; omega),
    List.drop_append_eq_append_drop, hhl,
    List.drop_eq_nil_of_le (le_of_eq hhl)]
  simp

lemma frame_chan_slice (blen : ℕ) (body : List ℕ) :
    pySlice (dsiHeader 1 blen ++ body) 23 (dsiHeader 1 blen ++ body).length = body.drop 11 := by
  have hhl : (dsiHeader 1 blen).length = 12 := by simp [dsiHeader]
  unfold pySlice
  rw [List.take_length, List.drop_append_eq_append_drop, hhl,
    List.drop_eq_nil_of_le (by rw [hhl]; omega)]
  simp

lemma handle_frame_body_len (st : SessionSt) (blen : ℕ) (body : List ℕ)
    (hb : body.length = blen) :
    (blen < 4 → handle_frame st (dsiHeader 1 blen) body = .error PyError.structError) ∧
    (4 ≤ blen → blen ≠ 111 →
      handle_frame st (dsiHeader 1 blen) body = .error PyError.structError) ∧
    (blen = 111 → ∃ st1, handle_frame st (dsiHeader 1 blen) body = .ok (true, st1)) := by
  have hts := frame_ts_slice blen body
  have hch := frame_chan_slice blen body
  refine ⟨?_, ?_, ?_⟩
  · intro hlt
    simp only [handle_frame, header_packet_type, hts, hch]
    have hU : unpackF (body.take 4) = .error PyError.structError := by
      unfold unpackF
      rw [if_neg (by simp only [List.length_take, hb]; omega)]
    simp [hU]
  · intro hge hne
    simp only [handle_frame, header_packet_type, hts, hch]
    have hU : unpackF (body.take 4) = .ok (decodeF32 (body.take 4)) := by
      unfold unpackF
      rw [if_pos (by simp only [List.length_take, hb]; omega)]
    have hC : unpack25F (body.drop 11) = .error PyError.structError := by
      unfold unpack25F
      rw [if_neg (by simp only [List.length_drop, hb]; omega)]
    simp [hU, hC]
  · intro h111
    simp only [handle_frame, header_packet_type, hts, hch]
    have hU : unpackF (body.take 4) = .ok (decodeF32 (body.take 4)) := by
      unfold unpackF
      rw [if_pos (by simp only [List.length_take, hb]; omega)]
    have hC : unpack25F (body.drop 11) = .ok (unpackF32List (body.drop 11)) := by
      unfold unpack25F
      rw [if_pos (by simp only [List.length_drop, hb]; omega)]
    simp [hU, hC]

lemma receive_frame_general (blen : ℕ) (body : List ℕ) (hb : body.length = blen)
    (h1 : 1 ≤ blen) :
    receive_and_handle_data sessionInit [some (dsiHeader 1 blen ++ body)] =
      (match handle_frame sessionInit (dsiHeader 1 blen) body with
       | .error e => .error e
       | .ok (b, st1) => .ok (b, st1, ([] : RecvStream))) := by
  have hbne : body.isEmpty = false := by
    rw [List.isEmpty_eq_false]
    intro hc
    subst hc
    simp at hb
    omega
  unfold receive_and_handle_data
  rw [recvall_header12 blen body hb h1]
  simp only [show (dsiHeader 1 blen).isEmpty = false from by simp [dsiHeader],
    Bool.false_eq_true, if_false, header_data_length]
  rw [recvall_exact_chunk blen body hb h1]
  simp only [hbne, Bool.false_eq_true, if_false]

/-- C10, counterexample: a type-1 frame with body length 0 is handled
without any exception — the zero-byte body read returns an empty byte
string, which the handler treats as a closed transport and returns
false — although its body length is not 111, contradicting the claim
that only length 111 avoids an uncaught exception. -/
theorem claim_C10_counterexample :
    receive_and_handle_data sessionInit [some (dsiHeader 1 0)] =
      .ok (false, logAdd sessionInit .noDataRemaining, []) ∧ (0 : ℕ) ≠ 111 :=
  ⟨rfl, by decide⟩

/-- C10, amended: a type-1 frame decodes without an uncaught exception
only when its body length is 111 or 0 (the zero-length body is treated
as transport closure before any unpack); for any other body length a
`struct.unpack` raises (`>f` when fewer than 4 body bytes are present,
`>25f` otherwise), and the exception propagates through `socket_loop`,
so the socket and file are never closed. -/
theorem claim_C10_amended (blen : ℕ) (body : List ℕ) (hb : body.length = blen) :
    (blen = 0 → receive_and_handle_data sessionInit [some (dsiHeader 1 blen ++ body)] =
        .ok (false, logAdd sessionInit .noDataRemaining, [])) ∧
    (1 ≤ blen → blen ≠ 111 →
      receive_and_handle_data sessionInit [some (dsiHeader 1 blen ++ body)] =
        .error PyError.structError ∧
      socket_loop 1 12 sessionInit [some (dsiHeader 1 blen ++ body)] =
        .error PyError.structError) ∧
    (blen = 111 → ∃ st1, receive_and_handle_data sessionInit [some (dsiHeader 1 blen ++ body)] =
        .ok (true, st1, [])) := by
  refine ⟨?_, ?_, ?_⟩
  · intro h0
    subst h0
    obtain rfl : body = [] := List.length_eq_zero.mp hb
    rfl
  · intro h1 hne
    have herr : handle_frame sessionInit (dsiHeader 1 blen) body = .error PyError.structError := by
      rcases lt_or_ge blen 4 with hlt | hge
      · exact (handle_frame_body_len sessionInit blen body hb).1 hlt
      · exact (handle_frame_body_len sessionInit blen body hb).2.1 hge hne
    have hrecv : receive_and_handle_data sessionInit [some (dsiHeader 1 blen ++ body)] =
        .error PyError.structError := by
      rw [receive_frame_general blen body hb h1, herr]
    refine ⟨hrecv, ?_⟩
    have hstream : streamLoop 1 sessionInit [some (dsiHeader 1 blen ++ body)] =
        .error PyError.structError := by
      simp only [streamLoop, hrecv]
    unfold socket_loop
    rw [hstream]
  · intro h111
    obtain ⟨st1, hok⟩ := (handle_frame_body_len sessionInit blen body hb).2.2 h111
    refine ⟨st1, ?_⟩
    rw [receive_frame_general blen body hb (by omega), hok]

/-- C10, witness: a type-1 frame with a five-byte body raises
`struct.error` and kills the acquisition loop. -/
theorem claim_C10_witness :
    receive_and_handle_data sessionInit [some (dsiHeader 1 5 ++ [0, 0, 0, 0, 0])] =
      .error PyError.structError ∧
    socket_loop 1 12 sessionInit [some (dsiHeader 1 5 ++ [0, 0, 0, 0, 0])] =
      .error PyError.structError :=
  (claim_C10_amended 5 [0, 0, 0, 0, 0] rfl).2.1 (by norm_num) (by norm_num)

end DataCollection
